import Mathlib

/-!
Shallow embedding of the clean-architecture User CRUD service.

The repository has two variants of each layer:
- the files under `internal/` ("Src" variant): a pure-passthrough use case
  (`internal/usecase/user_usecase.go`) over a raw-SQL SQLite repository
  (`internal/repository/sqlite_user_repository.go`);
- the code blocks embedded in `readme.md` ("Readme" variant): a GORM-backed
  repository and a richer use case with a duplicate-email check, timestamp
  stamping and limit/offset defaulting, plus the Echo HTTP handlers.

Go's `error` values are modelled by `Option GoError` (`none` = nil error);
the five domain sentinels are constructors, and `GoError.other` stands for
any further error value produced by `errors.New`/drivers (sentinels are
compared by identity in Go, which constructor equality mirrors; no code
path compares two non-sentinel errors). `time.Time` is modelled as `Int`.
`context.Context` carries no semantic content in this code and is dropped.
-/

/-- Domain sentinel errors from `internal/domain/model/error.go`, plus
`other` for arbitrary non-sentinel Go errors. -/
inductive GoError where
  | ErrInternalServerError
  | ErrNotFound
  | ErrConflict
  | ErrBadRequest
  | ErrInvalidCredentials
  | other (msg : String)
  deriving DecidableEq, Repr

/-- The User entity (`internal/domain/model/user.go` / readme `user.go`).
`ID` is int64 in the src variant and uint in the readme variant; both are
modelled as `Int` (no claim depends on the width). Timestamps are `Int`. -/
structure User where
  ID : Int
  Name : String
  Email : String
  Password : String
  CreatedAt : Int
  UpdatedAt : Int
  deriving DecidableEq, Repr

/-- The `UserRepository` interface: a record of the six method signatures.
Go's multiple returns `(*model.User, error)` become
`Option User × Option GoError` and `([]*model.User, error)` becomes
`Option (List User) × Option GoError`. -/
structure UserRepository where
  GetByID : Int → Option User × Option GoError
  GetByEmail : String → Option User × Option GoError
  Create : User → Option GoError
  Update : User → Option GoError
  Delete : Int → Option GoError
  List : Int → Int → Option (List User) × Option GoError

namespace SrcVariant

/-- Src variant `userUsecase.GetByID`: passthrough. -/
def userUsecase.GetByID (repo : UserRepository) (id : Int) :
    Option User × Option GoError :=
  repo.GetByID id

/-- Src variant `userUsecase.Create`: passthrough. -/
def userUsecase.Create (repo : UserRepository) (user : User) : Option GoError :=
  repo.Create user

/-- Src variant `userUsecase.Update`: passthrough. -/
def userUsecase.Update (repo : UserRepository) (user : User) : Option GoError :=
  repo.Update user

/-- Src variant `userUsecase.Delete`: passthrough. -/
def userUsecase.Delete (repo : UserRepository) (id : Int) : Option GoError :=
  repo.Delete id

/-- Src variant `userUsecase.List`: passthrough (no clamping in this file). -/
def userUsecase.List (repo : UserRepository) (limit offset : Int) :
    Option (List User) × Option GoError :=
  repo.List limit offset

end SrcVariant

namespace ReadmeVariant

/-- Readme variant `userUsecase.GetByID`: passthrough. -/
def userUsecase.GetByID (repo : UserRepository) (id : Int) :
    Option User × Option GoError :=
  repo.GetByID id

/-- Readme variant `userUsecase.Create`: looks up by email; an existing user
with a nil lookup error yields Conflict; a lookup error other than NotFound
is returned as-is; otherwise CreatedAt/UpdatedAt are stamped with the
current time (`now`) and the repository Create is called. -/
def userUsecase.Create (repo : UserRepository) (now : Int) (user : User) :
    Option GoError :=
  let r := repo.GetByEmail user.Email
  let existingUser := r.1
  let err := r.2
  if err = none ∧ existingUser ≠ none then
    some GoError.ErrConflict
  else if err ≠ none ∧ err ≠ some GoError.ErrNotFound then
    err
  else
    repo.Create { user with CreatedAt := now, UpdatedAt := now }

/-- Readme variant `userUsecase.Update`: checks existence via GetByID,
propagating its error; otherwise stamps UpdatedAt and persists. -/
def userUsecase.Update (repo : UserRepository) (now : Int) (user : User) :
    Option GoError :=
  match (repo.GetByID user.ID).2 with
  | some e => some e
  | none => repo.Update { user with UpdatedAt := now }

/-- Readme variant `userUsecase.Delete`: passthrough. -/
def userUsecase.Delete (repo : UserRepository) (id : Int) : Option GoError :=
  repo.Delete id

/-- Readme variant `userUsecase.List`: limit ≤ 0 is replaced by the default
10, offset < 0 by 0, then the repository List is called. -/
def userUsecase.List (repo : UserRepository) (limit offset : Int) :
    Option (List User) × Option GoError :=
  let limit2 := if limit ≤ 0 then 10 else limit
  let offset2 := if offset < 0 then 0 else offset
  repo.List limit2 offset2

end ReadmeVariant

/-! ## GORM-backed repository (readme `gorm_repository.go`)

The database is modelled as an in-memory list of typed rows (GORM maps the
struct to a typed schema). Each method performs one query over this list;
driver-level failures (which the Go code maps to InternalServerError) do
not arise in the pure model. `Update`/`Delete` compute RowsAffected as the
number of matched rows and return NotFound when it is zero, as the Go code
does. Methods that mutate return the new database together with the Go
results. -/

namespace GormRepo

/-- `gormUserRepository.GetByID`: First by primary key; a missing record is
NotFound. -/
def GetByID (db : List User) (id : Int) : Option User × Option GoError :=
  match db.find? (fun u => u.ID = id) with
  | some u => (some u, none)
  | none => (none, some GoError.ErrNotFound)

/-- `gormUserRepository.GetByEmail`: First where email matches; a missing
record is NotFound. -/
def GetByEmail (db : List User) (email : String) :
    Option User × Option GoError :=
  match db.find? (fun u => u.Email = email) with
  | some u => (some u, none)
  | none => (none, some GoError.ErrNotFound)

/-- `gormUserRepository.Create`: inserts the row. -/
def Create (db : List User) (user : User) : List User × Option GoError :=
  (db ++ [user], none)

/-- `gormUserRepository.Update`: Save by primary key; RowsAffected = 0 is
NotFound, otherwise the matching rows are replaced. -/
def Update (db : List User) (user : User) : List User × Option GoError :=
  let rowsAffected := (db.filter (fun u => u.ID = user.ID)).length
  if rowsAffected = 0 then
    (db, some GoError.ErrNotFound)
  else
    (db.map (fun u => if u.ID = user.ID then user else u), none)

/-- `gormUserRepository.Delete`: delete by primary key; RowsAffected = 0 is
NotFound. -/
def Delete (db : List User) (id : Int) : List User × Option GoError :=
  let rowsAffected := (db.filter (fun u => u.ID = id)).length
  if rowsAffected = 0 then
    (db, some GoError.ErrNotFound)
  else
    (db.filter (fun u => ¬ u.ID = id), none)

/-- `gormUserRepository.List`: Offset skips and Limit caps; GORM cancels
the OFFSET clause for a negative offset and the LIMIT clause for a
negative limit, returning all remaining rows. -/
def List (db : List User) (limit offset : Int) :
    Option (List User) × Option GoError :=
  let afterOffset := if offset < 0 then db else db.drop offset.toNat
  let limited := if limit < 0 then afterOffset else afterOffset.take limit.toNat
  (some limited, none)

end GormRepo

/-- The GORM repository at a fixed database state, as a `UserRepository`
record (the use-case layer observes only the Go return values; the updated
database state lives inside the repository methods). -/
def gormRepo (db : List User) : UserRepository where
  GetByID := GormRepo.GetByID db
  GetByEmail := GormRepo.GetByEmail db
  Create := fun u => (GormRepo.Create db u).2
  Update := fun u => (GormRepo.Update db u).2
  Delete := fun i => (GormRepo.Delete db i).2
  List := GormRepo.List db

/-! ## Raw-SQL SQLite repository (`internal/repository/sqlite_user_repository.go`)

SQLite is dynamically typed, so a stored row is six driver values of
arbitrary runtime type, including NULL. `database/sql`'s `Row.Scan` is
modelled faithfully: no row yields `sql.ErrNoRows`; a destination-count
mismatch with the selected columns yields a non-ErrNoRows error; otherwise
columns are converted into the destinations left to right per
`convertAssignRows`, stopping at the first conversion failure with the
earlier destinations already assigned. `convertAssignRows` converts int64
and time.Time sources into a string destination (asString / RFC3339Nano
formatting) and parses string sources into an int64 destination with
strconv.ParseInt; converting NULL into a string, int64 or time.Time
destination is unsupported, as is converting any non-time.Time source into
a time.Time destination. -/

/-- A driver value in a stored column: integer, text, timestamp, or
NULL. -/
inductive Value where
  | vint (i : Int)
  | vtext (s : String)
  | vtime (t : Int)
  | vnull
  deriving DecidableEq, Repr

/-- A stored row of the `users` table: the six columns as driver values. -/
structure DBRow where
  id : Value
  name : Value
  email : Value
  password : Value
  created_at : Value
  updated_at : Value
  deriving DecidableEq, Repr

/-- The column list of the SELECT, in order. -/
def DBRow.columns (r : DBRow) : List Value :=
  [r.id, r.name, r.email, r.password, r.created_at, r.updated_at]

/-- Errors surfaced by `database/sql` scanning: `sql.ErrNoRows` or some
other error (count mismatch, conversion failure). -/
inductive SqlError where
  | errNoRows
  | otherScan (msg : String)
  deriving DecidableEq, Repr

/-- A Scan destination: which field of the `User` struct a `&user.X`
argument points at. -/
inductive Dest where
  | dID
  | dName
  | dEmail
  | dPassword
  | dCreatedAt
  | dUpdatedAt
  deriving DecidableEq, Repr

/-- The value of one decimal digit character, `none` otherwise. -/
def digitValue (c : Char) : Option Nat :=
  if c.isDigit then some (c.toNat - 48) else none

/-- The magnitude of a nonempty decimal digit string, `none` on any
non-digit. -/
def decimalValue (ds : List Char) : Option Nat :=
  if ds.isEmpty then
    none
  else
    ds.foldl
      (fun acc c =>
        match acc, digitValue c with
        | some n, some d => some (n * 10 + d)
        | _, _ => none)
      (some 0)

/-- `strconv.ParseInt(s, 10, 64)`: an optional sign followed by decimal
digits, with the value required to fit in int64. -/
def parseInt64 (s : String) : Option Int :=
  match s.data with
  | '+' :: rest =>
    (decimalValue rest).bind
      (fun n => if n < 2 ^ 63 then some (n : Int) else none)
  | '-' :: rest =>
    (decimalValue rest).bind
      (fun n => if n ≤ 2 ^ 63 then some (-(n : Int)) else none)
  | ds =>
    (decimalValue ds).bind
      (fun n => if n < 2 ^ 63 then some (n : Int) else none)

/-- Conversion of a driver value into a string destination, as
`convertAssignRows` performs it: strings pass through, integers render in
decimal via asString, a time.Time formats with RFC3339Nano (rendered here
on the Int-modelled timestamp), and NULL is unsupported. -/
def Value.toStringDest : Value → Option String
  | Value.vint i => some (toString i)
  | Value.vtext s => some s
  | Value.vtime t => some ("time " ++ toString t)
  | Value.vnull => none

/-- Assign one driver value to one destination with the conversions of
`convertAssignRows`; `none` on an unsupported conversion. An int64
destination takes an int64 directly and a string via strconv.ParseInt; a
string destination takes anything but NULL; a time.Time destination takes
only a time.Time. -/
def assign (u : User) (d : Dest) (v : Value) : Option User :=
  match d, v with
  | Dest.dID, Value.vint i => some { u with ID := i }
  | Dest.dID, Value.vtext s => (parseInt64 s).map (fun i => { u with ID := i })
  | Dest.dID, _ => none
  | Dest.dName, v => v.toStringDest.map (fun s => { u with Name := s })
  | Dest.dEmail, v => v.toStringDest.map (fun s => { u with Email := s })
  | Dest.dPassword, v => v.toStringDest.map (fun s => { u with Password := s })
  | Dest.dCreatedAt, Value.vtime t => some { u with CreatedAt := t }
  | Dest.dCreatedAt, _ => none
  | Dest.dUpdatedAt, Value.vtime t => some { u with UpdatedAt := t }
  | Dest.dUpdatedAt, _ => none

/-- Convert the columns into the destinations left to right; on the first
failure the partially assigned struct is kept, as in `Rows.Scan`. -/
def scanFields : List Value → List Dest → User → User × Option SqlError
  | [], [], u => (u, none)
  | v :: vs, d :: ds, u =>
    match assign u d v with
    | some u2 => scanFields vs ds u2
    | none => (u, some (SqlError.otherScan "converting driver value failed"))
  | _, _, u => (u, some (SqlError.otherScan "column count mismatch"))

/-- `sql.Row.Scan`: ErrNoRows when the query matched no row, an error when
the destination count differs from the column count, else field-by-field
conversion. -/
def rowScan (row : Option (List Value)) (dests : List Dest) (u : User) :
    User × Option SqlError :=
  match row with
  | none => (u, some SqlError.errNoRows)
  | some cols =>
    if dests.length = cols.length then
      scanFields cols dests u
    else
      (u, some (SqlError.otherScan "expected a different number of destination arguments"))

/-- The zero value `&model.User{}` that the repository scans into. -/
def emptyUser : User :=
  { ID := 0, Name := "", Email := "", Password := "", CreatedAt := 0,
    UpdatedAt := 0 }

/-- Result of `QueryRowContext` for `WHERE id = ?`: the first row whose id
column equals the argument. -/
def queryUserByID (db : List DBRow) (id : Int) : Option (List Value) :=
  (db.find? (fun r => r.id = Value.vint id)).map DBRow.columns

/-- Result of `QueryRowContext` for `WHERE email = ?`. -/
def queryUserByEmail (db : List DBRow) (email : String) :
    Option (List Value) :=
  (db.find? (fun r => r.email = Value.vtext email)).map DBRow.columns

namespace SqliteRepo

/-- The Scan destination list of `GetByID` as written in the source: five
destinations (`&user.ID, &user.Name, &user.Password, &user.CreatedAt,
&user.UpdatedAt`) for the six selected columns; `&user.Email` is absent. -/
def getByIDDests : List Dest :=
  [Dest.dID, Dest.dName, Dest.dPassword, Dest.dCreatedAt, Dest.dUpdatedAt]

/-- The Scan destination list of `GetByEmail`: all six fields in column
order. -/
def getByEmailDests : List Dest :=
  [Dest.dID, Dest.dName, Dest.dEmail, Dest.dPassword, Dest.dCreatedAt,
   Dest.dUpdatedAt]

/-- `sqliteUserRepository.GetByID`: SELECT six columns WHERE id = ?, scan
into the five destinations listed in the source, map ErrNoRows to NotFound
and any other scan error to InternalServerError. -/
def GetByID (db : List DBRow) (id : Int) : Option User × Option GoError :=
  let r := rowScan (queryUserByID db id) getByIDDests emptyUser
  match r.2 with
  | some e =>
    if e = SqlError.errNoRows then
      (none, some GoError.ErrNotFound)
    else
      (none, some GoError.ErrInternalServerError)
  | none => (some r.1, none)

/-- `sqliteUserRepository.GetByEmail`: SELECT six columns WHERE email = ?,
scan into all six destinations; ErrNoRows maps to NotFound, but any other
scan error falls through the inner if without returning, so the function
ends at `return user, nil` with the partially scanned struct. -/
def GetByEmail (db : List DBRow) (email : String) :
    Option User × Option GoError :=
  let r := rowScan (queryUserByEmail db email) getByEmailDests emptyUser
  match r.2 with
  | some e =>
    if e = SqlError.errNoRows then
      (none, some GoError.ErrNotFound)
    else
      (some r.1, none)
  | none => (some r.1, none)

end SqliteRepo

/-! ## JSON serialization of `User`

`encoding/json` marshals a struct to the fields whose tag is not `-`,
under the tag name, in declaration order. The `User` struct tags are
`json:"id"`, `json:"name"`, `json:"email"`, `json:"-"` (Password, with the
source comment that it is excluded from JSON responses), `json:"created_at"`
and `json:"updated_at"`. -/

/-- A JSON value as produced for the User fields. -/
inductive JsonValue where
  | num (n : Int)
  | str (s : String)
  deriving DecidableEq, Repr

/-- JSON object produced by marshalling a `User` per its struct tags: the
key/value pairs in declaration order, with the Password field (tag
`json:"-"`) omitted. -/
def User.marshalJSON (u : User) : List (String × JsonValue) :=
  [("id", JsonValue.num u.ID),
   ("name", JsonValue.str u.Name),
   ("email", JsonValue.str u.Email),
   ("created_at", JsonValue.num u.CreatedAt),
   ("updated_at", JsonValue.num u.UpdatedAt)]

/-! ## HTTP handler layer (readme `user_handler.go`)

A handler outcome is modelled as the HTTP status plus the user echoed in a
success body (response message strings carry no claim-relevant content and
are omitted). JSON binding of the request body is modelled by its outcome:
`none` when `c.Bind` fails, `some user` for the bound struct. -/

/-- Handler outcome: HTTP status and the user serialized in a success
response, if any. -/
structure Response where
  status : Nat
  data : Option User
  deriving DecidableEq, Repr

/-- `getStatusCode`: 200 for a nil error, then a switch on the sentinel
errors with a default of 500. -/
def getStatusCode (err : Option GoError) : Nat :=
  match err with
  | none => 200
  | some GoError.ErrInternalServerError => 500
  | some GoError.ErrNotFound => 404
  | some GoError.ErrConflict => 409
  | some GoError.ErrInvalidCredentials => 401
  | some _ => 500

/-- `strconv.ParseUint(s, 10, 32)`: nonempty decimal digit strings (no
sign) whose value fits in 32 bits; anything else is a parse error
(`none`). -/
def parseUint32 (s : String) : Option Nat :=
  (decimalValue s.data).bind (fun n => if n < 2 ^ 32 then some n else none)

/-- `CreateUser` handler: a bind failure is 400; an empty Name, Email or
Password is 400 before the use case is reached; otherwise the use-case
Create runs and an error maps through `getStatusCode`, success is 201 with
the user. -/
def CreateUser (ucCreate : User → Option GoError) (body : Option User) :
    Response :=
  match body with
  | none => { status := 400, data := none }
  | some user =>
    if user.Name = "" ∨ user.Email = "" ∨ user.Password = "" then
      { status := 400, data := none }
    else
      match ucCreate user with
      | some e => { status := getStatusCode (some e), data := none }
      | none => { status := 201, data := some user }

/-- `UpdateUser` handler: parses the path id with ParseUint (400 on
failure), binds the body (400 on failure), overwrites the bound user's ID
with the parsed path id, then calls the use-case Update; an error maps
through `getStatusCode`, success is 200 with the user. -/
def UpdateUser (ucUpdate : User → Option GoError) (idParam : String)
    (body : Option User) : Response :=
  match parseUint32 idParam with
  | none => { status := 400, data := none }
  | some id =>
    match body with
    | none => { status := 400, data := none }
    | some user0 =>
      let user := { user0 with ID := (id : Int) }
      match ucUpdate user with
      | some e => { status := getStatusCode (some e), data := none }
      | none => { status := 200, data := some user }

/-! ## Concrete fixtures used by witnesses and counterexamples -/

/-- A sample stored user. -/
def sampleUser : User :=
  { ID := 1, Name := "alice", Email := "alice@example.com", Password := "pw",
    CreatedAt := 0, UpdatedAt := 0 }

/-- A repository whose List result records the limit and offset it was
invoked with (in the ID and CreatedAt fields of a probe row), so that the
arguments reaching the repository are observable. -/
def probeRepo : UserRepository where
  GetByID := fun _ => (none, some GoError.ErrNotFound)
  GetByEmail := fun _ => (none, some GoError.ErrNotFound)
  Create := fun _ => none
  Update := fun _ => none
  Delete := fun _ => none
  List := fun limit offset =>
    (some [{ sampleUser with ID := limit, CreatedAt := offset }], none)

/-- A repository whose email lookup finds the sample user with a nil
error. -/
def conflictRepo : UserRepository :=
  { probeRepo with GetByEmail := (fun _ => (some sampleUser, none)) }

/-- A stored `users` row whose six columns all hold values of the type the
entity fields expect. -/
def storedRow : DBRow :=
  { id := Value.vint 1, name := Value.vtext "alice",
    email := Value.vtext "alice@example.com", password := Value.vtext "pw",
    created_at := Value.vtime 3, updated_at := Value.vtime 4 }

/-- A stored `users` row whose name column is NULL (the raw-SQL variant's
table is created outside this repository, so nothing forbids it), so
scanning it into the non-nullable string Name destination fails after the
id column has already been assigned: converting NULL to a string is
unsupported. -/
def corruptRow : DBRow :=
  { id := Value.vint 1, name := Value.vnull,
    email := Value.vtext "alice@example.com", password := Value.vtext "pw",
    created_at := Value.vtime 3, updated_at := Value.vtime 4 }

/-! ## Claims -/

/-- C6: the handler status mapping sends NotFound to 404, Conflict to 409,
InvalidCredentials to 401, and every other non-nil error (including
InternalServerError and BadRequest) to 500. -/
theorem C6_status_mapping :
    getStatusCode (some GoError.ErrNotFound) = 404 ∧
    getStatusCode (some GoError.ErrConflict) = 409 ∧
    getStatusCode (some GoError.ErrInvalidCredentials) = 401 ∧
    (∀ e : GoError, e ≠ GoError.ErrNotFound → e ≠ GoError.ErrConflict →
      e ≠ GoError.ErrInvalidCredentials → getStatusCode (some e) = 500) := by
  refine ⟨rfl, rfl, rfl, ?_⟩
  intro e h1 h2 h3
  cases e with
  | ErrInternalServerError => rfl
  | ErrNotFound => exact absurd rfl h1
  | ErrConflict => exact absurd rfl h2
  | ErrBadRequest => rfl
  | ErrInvalidCredentials => exact absurd rfl h3
  | other msg => rfl

/-- Witness for C6: BadRequest is not one of the three mapped sentinels and
gets status 500. -/
theorem C6_status_mapping_witness :
    getStatusCode (some GoError.ErrBadRequest) = 500 :=
  C6_status_mapping.2.2.2 GoError.ErrBadRequest (by decide) (by decide)
    (by decide)

/-- C7: when the bound body of POST /api/v1/users has an empty Name, Email
or Password, the handler responds 400, and the response is independent of
the use-case Create function (the early return means Create is never
invoked, so no persistence call occurs). -/
theorem C7_create_presence_validation
    (ucCreate ucCreate2 : User → Option GoError) (user : User)
    (h : user.Name = "" ∨ user.Email = "" ∨ user.Password = "") :
    CreateUser ucCreate (some user) = { status := 400, data := none } ∧
    CreateUser ucCreate (some user) = CreateUser ucCreate2 (some user) := by
  constructor
  · simp only [CreateUser, if_pos h]
  · simp only [CreateUser, if_pos h]

/-- Witness for C7: a body with an empty Name yields 400 under two
different use-case Create functions. -/
theorem C7_create_presence_validation_witness :
    CreateUser (fun _ => none)
      (some { sampleUser with Name := "" }) = { status := 400, data := none } ∧
    CreateUser (fun _ => none) (some { sampleUser with Name := "" }) =
      CreateUser (fun _ => some GoError.ErrConflict)
        (some { sampleUser with Name := "" }) :=
  C7_create_presence_validation (fun _ => none)
    (fun _ => some GoError.ErrConflict) { sampleUser with Name := "" }
    (Or.inl rfl)

/-- C8: the simpler use-case variant (`internal/usecase/user_usecase.go`)
is a pure passthrough: each operation returns exactly the corresponding
repository method's result on the same arguments, for every repository and
every input. -/
theorem C8_passthrough (repo : UserRepository) (id : Int) (user : User)
    (limit offset : Int) :
    SrcVariant.userUsecase.GetByID repo id = repo.GetByID id ∧
    SrcVariant.userUsecase.Create repo user = repo.Create user ∧
    SrcVariant.userUsecase.Update repo user = repo.Update user ∧
    SrcVariant.userUsecase.Delete repo id = repo.Delete id ∧
    SrcVariant.userUsecase.List repo limit offset = repo.List limit offset :=
  ⟨rfl, rfl, rfl, rfl, rfl⟩

/-- C9: the Password field is excluded from the JSON serialization of a
User: two users differing only in Password serialize identically, and the
serialized keys are exactly the five non-Password tags. -/
theorem C9_password_not_serialized (u : User) (p : String) :
    User.marshalJSON { u with Password := p } = User.marshalJSON u ∧
    (User.marshalJSON u).map Prod.fst =
      ["id", "name", "email", "created_at", "updated_at"] :=
  ⟨rfl, rfl⟩

/-- C10: for a PUT /api/v1/users/:id request whose path id parses and whose
body binds, the user handed to the use-case Update is the bound body with
its ID overwritten by the parsed path id, so the response is invariant
under the body's id field. -/
theorem C10_update_id_overwrite (ucUpdate : User → Option GoError)
    (idParam : String) (id : Nat) (user0 : User)
    (hparse : parseUint32 idParam = some id) :
    UpdateUser ucUpdate idParam (some user0) =
      (match ucUpdate { user0 with ID := (id : Int) } with
       | some e => { status := getStatusCode (some e), data := none }
       | none =>
         { status := 200, data := some { user0 with ID := (id : Int) } }) ∧
    (∀ v : Int, UpdateUser ucUpdate idParam (some { user0 with ID := v }) =
      UpdateUser ucUpdate idParam (some user0)) := by
  constructor
  · simp only [UpdateUser, hparse]
  · intro v
    simp only [UpdateUser, hparse]

/-- Witness for C10: with path id "7", the use-case receives the body with
ID 7 even when the body carried ID 99. -/
theorem C10_update_id_overwrite_witness :
    UpdateUser (fun _ => none) "7" (some { sampleUser with ID := 99 }) =
      UpdateUser (fun _ => none) "7" (some sampleUser) :=
  (C10_update_id_overwrite (fun _ => none) "7" 7 sampleUser (by decide)).2 99

/-- C2 is a code bug: `sqliteUserRepository.GetByEmail` maps ErrNoRows to
NotFound but has no return statement for any other scan error, falling
through to `return user, nil`. On a row whose email matches but whose name
column is NULL, Scan fails (converting NULL to a string is unsupported)
after assigning the id column, yet the repository reports success with the
partially scanned user (its Name, Email and remaining fields still
zero-valued). -/
theorem C2_nil_error_on_scan_failure :
    (rowScan (queryUserByEmail [corruptRow] "alice@example.com")
        SqliteRepo.getByEmailDests emptyUser).2 =
      some (SqlError.otherScan "converting driver value failed") ∧
    SqliteRepo.GetByEmail [corruptRow] "alice@example.com" =
      (some { emptyUser with ID := 1 }, none) := by
  constructor
  · rfl
  · rfl

/-- C3 is a code bug: `sqliteUserRepository.GetByID` selects six columns
but passes only five Scan destinations (`&user.Email` is missing), so
`Row.Scan` fails with a destination-count error on every stored row and
the repository returns InternalServerError instead of the user; only the
NotFound half of the claim (no row with the id) behaves as specified. -/
theorem C3_getbyid_scan_count_bug :
    SqliteRepo.GetByID [storedRow] 1 =
      (none, some GoError.ErrInternalServerError) ∧
    SqliteRepo.GetByID [] 1 = (none, some GoError.ErrNotFound) ∧
    SqliteRepo.getByIDDests.length = 5 ∧
    storedRow.columns.length = 6 := by
  refine ⟨rfl, rfl, rfl, rfl⟩

/-- C1 counterexample: the claim asserts the limit/offset defaulting for
the use-case List "in each variant", but the simpler variant
(`internal/usecase/user_usecase.go`) is a pure passthrough: called with
limit 0, the repository receives limit 0, not the default 10 (the probe
repository echoes the arguments it receives). -/
theorem C1_no_clamping_in_src_variant :
    SrcVariant.userUsecase.List probeRepo 0 5 = probeRepo.List 0 5 ∧
    SrcVariant.userUsecase.List probeRepo 0 5 ≠ probeRepo.List 10 5 := by
  refine ⟨rfl, ?_⟩
  decide

/-- C1 amended: the defaulting (limit ≤ 0 becomes 10, offset < 0 becomes
0, other arguments pass through) holds for the richer readme use-case
variant; the simpler src variant's List passes limit and offset to the
repository unchanged. -/
theorem C1_list_defaulting (repo : UserRepository) (limit offset : Int) :
    (limit ≤ 0 → 0 ≤ offset →
      ReadmeVariant.userUsecase.List repo limit offset = repo.List 10 offset) ∧
    (0 < limit → offset < 0 →
      ReadmeVariant.userUsecase.List repo limit offset = repo.List limit 0) ∧
    (limit ≤ 0 → offset < 0 →
      ReadmeVariant.userUsecase.List repo limit offset = repo.List 10 0) ∧
    (0 < limit → 0 ≤ offset →
      ReadmeVariant.userUsecase.List repo limit offset =
        repo.List limit offset) ∧
    SrcVariant.userUsecase.List repo limit offset = repo.List limit offset := by
  refine ⟨fun h1 h2 => ?_, fun h1 h2 => ?_, fun h1 h2 => ?_,
    fun h1 h2 => ?_, rfl⟩
  · show repo.List (if limit ≤ 0 then 10 else limit)
      (if offset < 0 then 0 else offset) = repo.List 10 offset
    rw [if_pos h1, if_neg (not_lt.mpr h2)]
  · show repo.List (if limit ≤ 0 then 10 else limit)
      (if offset < 0 then 0 else offset) = repo.List limit 0
    rw [if_neg (not_le.mpr h1), if_pos h2]
  · show repo.List (if limit ≤ 0 then 10 else limit)
      (if offset < 0 then 0 else offset) = repo.List 10 0
    rw [if_pos h1, if_pos h2]
  · show repo.List (if limit ≤ 0 then 10 else limit)
      (if offset < 0 then 0 else offset) = repo.List limit offset
    rw [if_neg (not_le.mpr h1), if_neg (not_lt.mpr h2)]

/-- Witness for the amended C1: the readme variant called with limit 0 and
offset 5 invokes the repository with limit 10 and offset 5. -/
theorem C1_list_defaulting_witness :
    ReadmeVariant.userUsecase.List probeRepo 0 5 = probeRepo.List 10 5 :=
  (C1_list_defaulting probeRepo 0 5).1 (by decide) (by decide)

/-- C4: in the richer use-case variant, Create returns Conflict whenever
the email lookup succeeds with a user, independently of the repository
Create function (which is therefore never reached); a lookup error other
than NotFound is returned unchanged; and on a NotFound lookup error, or a
nil-error lookup with no user, Create stamps CreatedAt and UpdatedAt with
the current time and calls the repository's Create. -/
theorem C4_create_duplicate_check (repo : UserRepository) (now : Int)
    (user : User) :
    (∀ u, repo.GetByEmail user.Email = (some u, none) →
      ∀ createFn, ReadmeVariant.userUsecase.Create
        { repo with Create := createFn } now user = some GoError.ErrConflict) ∧
    (∀ eu e, e ≠ GoError.ErrNotFound →
      repo.GetByEmail user.Email = (eu, some e) →
      ReadmeVariant.userUsecase.Create repo now user = some e) ∧
    (∀ eu, repo.GetByEmail user.Email = (eu, some GoError.ErrNotFound) →
      ReadmeVariant.userUsecase.Create repo now user =
        repo.Create { user with CreatedAt := now, UpdatedAt := now }) ∧
    (repo.GetByEmail user.Email = (none, none) →
      ReadmeVariant.userUsecase.Create repo now user =
        repo.Create { user with CreatedAt := now, UpdatedAt := now }) := by
  refine ⟨?_, ?_, ?_, ?_⟩
  · intro u hmail createFn
    simp only [ReadmeVariant.userUsecase.Create, hmail]
    simp
  · intro eu e hne hmail
    simp only [ReadmeVariant.userUsecase.Create, hmail]
    rw [if_neg (by simp), if_pos (by simp [hne])]
  · intro eu hmail
    simp only [ReadmeVariant.userUsecase.Create, hmail]
    rw [if_neg (by simp), if_neg (by simp)]
  · intro hmail
    simp only [ReadmeVariant.userUsecase.Create, hmail]
    rw [if_neg (by simp), if_neg (by simp)]

/-- Witness for C4: with a repository whose email lookup finds the sample
user, Create returns Conflict even under a repository Create that would
report success. -/
theorem C4_create_duplicate_check_witness :
    ReadmeVariant.userUsecase.Create
      { conflictRepo with Create := (fun _ => none) } 5 sampleUser =
      some GoError.ErrConflict :=
  (C4_create_duplicate_check conflictRepo 5 sampleUser).1 sampleUser rfl
    (fun _ => none)

/-- C5: for an id held by no stored user, the richer use case over the
GORM repository returns NotFound from GetByID (no matching record), from
Update (the existence check's GetByID error is propagated), and from
Delete (zero rows affected). -/
theorem C5_missing_id_notfound (db : List User) (id : Int)
    (hid : ∀ u ∈ db, u.ID ≠ id) :
    ReadmeVariant.userUsecase.GetByID (gormRepo db) id =
      (none, some GoError.ErrNotFound) ∧
    (∀ now user, user.ID = id →
      ReadmeVariant.userUsecase.Update (gormRepo db) now user =
        some GoError.ErrNotFound) ∧
    ReadmeVariant.userUsecase.Delete (gormRepo db) id =
      some GoError.ErrNotFound := by
  have hfind : db.find? (fun u => u.ID = id) = none := by
    rw [List.find?_eq_none]
    intro x hx
    simpa using hid x hx
  have hfilter : db.filter (fun u => u.ID = id) = [] := by
    rw [List.filter_eq_nil_iff]
    intro x hx
    simpa using hid x hx
  refine ⟨?_, ?_, ?_⟩
  · simp [ReadmeVariant.userUsecase.GetByID, gormRepo, GormRepo.GetByID,
      hfind]
  · intro now user huser
    simp [ReadmeVariant.userUsecase.Update, gormRepo, GormRepo.GetByID,
      huser, hfind]
  · simp only [ReadmeVariant.userUsecase.Delete, gormRepo, GormRepo.Delete,
      hfilter, List.length_nil]
    rfl

/-- Witness for C5: a database holding only the sample user (ID 1) has no
user with ID 2, and all three operations report NotFound there. -/
theorem C5_missing_id_notfound_witness :
    ReadmeVariant.userUsecase.GetByID (gormRepo [sampleUser]) 2 =
      (none, some GoError.ErrNotFound) ∧
    ReadmeVariant.userUsecase.Update (gormRepo [sampleUser]) 9
      { sampleUser with ID := 2 } = some GoError.ErrNotFound ∧
    ReadmeVariant.userUsecase.Delete (gormRepo [sampleUser]) 2 =
      some GoError.ErrNotFound := by
  have h := C5_missing_id_notfound [sampleUser] 2 (by decide)
  exact ⟨h.1, h.2.1 9 { sampleUser with ID := 2 } rfl, h.2.2⟩
